import Mathlib

/-!
Verification of the FluidGlass portfolio component
(`src/components/FluidGlass.js`): a shallow embedding in Lean 4 of the
pure layout and state logic — device breakpoints, title fade, image
selection, nav-label layout, image scale clamping, glass-mesh sizing,
material-parameter resolution and idle oscillation — together with
theorems settling the documented properties.

JavaScript numbers are modelled as rationals (`ℚ`) except where the
transcendental functions `Math.sin` / `Math.cos` force the reals (`ℝ`).
Optional JS values (`undefined`) are modelled as `Option`.
-/

namespace FluidGlass

/-! ## Device breakpoints (NavItems.getDevice, Typography.getDevice) -/

/-- The three device breakpoints used by both `NavItems` and `Typography`. -/
inductive Device
  | mobile
  | tablet
  | desktop
deriving DecidableEq, Repr

/-- `NavItems.getDevice`: `w <= DEVICE.mobile.max (= 639)` gives mobile,
`w <= DEVICE.tablet.max (= 1023)` gives tablet, otherwise desktop.
`window.innerWidth` is a non-negative integer, modelled by `ℕ`. -/
def navGetDevice (w : ℕ) : Device :=
  if w ≤ 639 then .mobile else if w ≤ 1023 then .tablet else .desktop

/-- `Typography.getDevice`: `w <= 639 ? "mobile" : w <= 1023 ? "tablet" :
"desktop"`. -/
def typographyGetDevice (w : ℕ) : Device :=
  if w ≤ 639 then .mobile else if w ≤ 1023 then .tablet else .desktop

/-! ## Title fade (Typography) -/

/-- `titleOpacity = Math.max(0, 1 - scrollProgress * 4)` where
`scrollProgress = scroll.offset`. -/
def titleOpacity (s : ℚ) : ℚ := max 0 (1 - s * 4)

/-- The `visible={titleOpacity > 0}` prop on the title `Text`. -/
def titleVisible (s : ℚ) : Bool := titleOpacity s > 0

/-! ## Image selection state machine (Images) -/

/-- The discrete input events that can change the gallery selection:
a raycast click on image `i` (the mesh `onClick` handler), a DOM click
whose target is the background `CANVAS`, and an `Escape` keydown. -/
inductive GalleryEvent
  | imageClick (i : ℕ)
  | backgroundClick
  | escapeKey
deriving DecidableEq, Repr

/-- One step of the selection state. `selectedImage` is `null` or an
index, modelled by `Option ℕ`.
`handleImageClick`: `setSelectedImage(selectedImage === index ? null : index)`;
`handleGlobalClick` (canvas target) and `handleKeyDown` (Escape):
`setSelectedImage(null)`. -/
def stepSelection (sel : Option ℕ) : GalleryEvent → Option ℕ
  | .imageClick i => if sel = some i then none else some i
  | .backgroundClick => none
  | .escapeKey => none

/-- Run a finite sequence of gallery events from the initial state
`useState(null)`, i.e. no selection. -/
def runSelection (evs : List GalleryEvent) : Option ℕ :=
  evs.foldl stepSelection none

/-- The number of selected image indices held by a selection state. -/
def selectedCount : Option ℕ → ℕ
  | none => 0
  | some _ => 1

/-! ## Theorems: breakpoints -/

/-- C1: for every window width `w`, the breakpoint is mobile iff
`w ≤ 639`, tablet iff `640 ≤ w ≤ 1023`, desktop iff `w ≥ 1024`, and the
navigation layout (`NavItems.getDevice`) and the title controller
(`Typography.getDevice`) compute the same breakpoint from the same
width. -/
theorem breakpoint_determinism (w : ℕ) :
    navGetDevice w = typographyGetDevice w ∧
    (navGetDevice w = .mobile ↔ w ≤ 639) ∧
    (navGetDevice w = .tablet ↔ 640 ≤ w ∧ w ≤ 1023) ∧
    (navGetDevice w = .desktop ↔ 1024 ≤ w) := by
  unfold navGetDevice typographyGetDevice
  refine ⟨rfl, ?_, ?_, ?_⟩ <;> split_ifs with h1 h2 <;> simp_all <;> omega

/-! ## Theorems: title fade -/

/-- C2: for every scroll offset `s ∈ [0,1]`, the title opacity equals
`max 0 (1 - 4*s)`, visibility is off exactly when opacity is `0`,
opacity is `1` at `s = 0`, `0` at `s = 1/4`, and stays `0` with
visibility off for every `s > 1/4`. -/
theorem title_opacity_boundary (s : ℚ) (hs0 : 0 ≤ s) (hs1 : s ≤ 1) :
    titleOpacity s = max 0 (1 - 4 * s) ∧
    (titleVisible s = false ↔ titleOpacity s = 0) ∧
    titleOpacity 0 = 1 ∧
    titleOpacity (1/4) = 0 ∧
    (1/4 < s → titleOpacity s = 0 ∧ titleVisible s = false) := by
  constructor
  · unfold titleOpacity; ring_nf
  refine ⟨?_, by norm_num [titleOpacity], by norm_num [titleOpacity], ?_⟩
  · unfold titleVisible
    constructor
    · intro h
      have h' : ¬ (0 : ℚ) < titleOpacity s := by
        intro hlt
        simp [hlt] at h
      have : 0 ≤ titleOpacity s := le_max_left _ _
      linarith [lt_of_le_of_ne this]
    · intro h
      simp [h]
  · intro h
    have hop : titleOpacity s = 0 := by
      unfold titleOpacity
      rw [max_eq_left]
      linarith
    refine ⟨hop, ?_⟩
    unfold titleVisible
    simp [hop]

/-- Witness for C2 at `s = 1/2`. -/
theorem title_opacity_boundary_witness :
    titleOpacity (1/2) = max 0 (1 - 4 * (1/2)) ∧
    (titleVisible (1/2) = false ↔ titleOpacity (1/2) = 0) ∧
    titleOpacity 0 = 1 ∧
    titleOpacity (1/4) = 0 ∧
    (1/4 < (1/2 : ℚ) → titleOpacity (1/2) = 0 ∧ titleVisible (1/2) = false) :=
  title_opacity_boundary (1/2) (by norm_num) (by norm_num)

/-! ## Nav label layout (NavItems useFrame) -/

/-- The x-offset assigned to label `i` of `n` items each frame:
`child.position.x = (i - (items.length - 1) / 2) * spacing`. -/
def navLabelX (n : ℕ) (spacing : ℚ) (i : ℕ) : ℚ :=
  ((i : ℚ) - ((n : ℚ) - 1) / 2) * spacing

/-! ## Image scaling (ImageWithAspectRatio) -/

/-- JS truthiness of an optional number: `undefined` and `0` are falsy,
as in `if (desiredWidth)`. -/
def qTruthy : Option ℚ → Bool
  | none => false
  | some q => decide (q ≠ 0)

/-- The base scale `(scaleX, scaleY)` of an image with aspect ratio
`aspectRatio` in a viewport of width `vw`: from `desiredWidth` when
truthy (`scaleX = desiredWidth`, `scaleY = desiredWidth / aspectRatio`),
else from `desiredHeight` when truthy (`scaleY = desiredHeight`,
`scaleX = desiredHeight * aspectRatio`), else `scaleX = vw * 0.4`,
`scaleY = scaleX / aspectRatio`. -/
def baseScale (aspectRatio vw : ℚ) (desiredWidth desiredHeight : Option ℚ) :
    ℚ × ℚ :=
  if qTruthy desiredWidth then
    (desiredWidth.getD 0, desiredWidth.getD 0 / aspectRatio)
  else if qTruthy desiredHeight then
    (desiredHeight.getD 0 * aspectRatio, desiredHeight.getD 0)
  else
    (vw * 0.4, vw * 0.4 / aspectRatio)

/-- `maxScaleFactor = Math.min(viewport.width / scaleX,
viewport.height / scaleY, 1)`. -/
def maxScaleFactor (vw vh sx sy : ℚ) : ℚ :=
  min (min (vw / sx) (vh / sy)) 1

/-- The scale the mesh actually uses: the base scale with both axes
multiplied by `maxScaleFactor`. -/
def clampedScale (a vw vh : ℚ) (dw dh : Option ℚ) : ℚ × ℚ :=
  let p := baseScale a vw dw dh
  let f := maxScaleFactor vw vh p.1 p.2
  (p.1 * f, p.2 * f)

/-- First selected-state clamp step:
`if (targetScaleX > maxWidth) { targetScaleX = maxWidth;
targetScaleY = maxWidth / aspectRatio; }`. -/
def selectedClampW (a maxW : ℚ) (t : ℚ × ℚ) : ℚ × ℚ :=
  if maxW < t.1 then (maxW, maxW / a) else t

/-- Second selected-state clamp step:
`if (targetScaleY > maxHeight) { targetScaleY = maxHeight;
targetScaleX = maxHeight * aspectRatio; }`. -/
def selectedClampH (a maxH : ℚ) (t : ℚ × ℚ) : ℚ × ℚ :=
  if maxH < t.2 then (maxH * a, maxH) else t

/-- The selected-state target scale: starting from `(sx, sy)`, the two
clamp steps run in sequence (width first, then height, each recomputing
the other axis from the aspect ratio). -/
def selectedTargetScale (aspectRatio maxW maxH sx sy : ℚ) : ℚ × ℚ :=
  selectedClampH aspectRatio maxH (selectedClampW aspectRatio maxW (sx, sy))

/-- Both components of the base scale are positive when the aspect
ratio, viewport width and any supplied desired dimension are. -/
theorem baseScale_pos (a vw : ℚ) (dw dh : Option ℚ)
    (ha : 0 < a) (hvw : 0 < vw)
    (hdw : ∀ w ∈ dw, 0 < w) (hdh : ∀ h ∈ dh, 0 < h) :
    0 < (baseScale a vw dw dh).1 ∧ 0 < (baseScale a vw dw dh).2 := by
  unfold baseScale
  cases dw with
  | some w =>
    have hw : 0 < w := hdw w rfl
    have hq : qTruthy (some w) = true := by simp [qTruthy, hw.ne']
    simp only [hq, if_true, Option.getD_some]
    exact ⟨hw, div_pos hw ha⟩
  | none =>
    cases dh with
    | some h =>
      have hh : 0 < h := hdh h rfl
      simp [qTruthy, hh.ne']
      exact ⟨mul_pos hh ha, hh⟩
    | none =>
      simp [qTruthy]
      constructor
      · positivity
      · positivity

/-- The base scale respects the aspect ratio: `scaleX = a * scaleY`. -/
theorem baseScale_ratio (a vw : ℚ) (dw dh : Option ℚ) (ha : a ≠ 0) :
    (baseScale a vw dw dh).1 = a * (baseScale a vw dw dh).2 := by
  unfold baseScale
  split_ifs
  · rw [mul_div_cancel₀ _ ha]
  · ring
  · rw [mul_div_cancel₀ _ ha]

/-- The clamp factor is positive when everything in sight is. -/
theorem maxScaleFactor_pos (vw vh sx sy : ℚ)
    (hvw : 0 < vw) (hvh : 0 < vh) (hsx : 0 < sx) (hsy : 0 < sy) :
    0 < maxScaleFactor vw vh sx sy := by
  unfold maxScaleFactor
  have h1 : 0 < vw / sx := div_pos hvw hsx
  have h2 : 0 < vh / sy := div_pos hvh hsy
  simp only [lt_min_iff]
  exact ⟨⟨h1, h2⟩, one_pos⟩

/-- Unfolding equation for `clampedScale`. -/
theorem clampedScale_eq (a vw vh : ℚ) (dw dh : Option ℚ) :
    clampedScale a vw vh dw dh =
      ((baseScale a vw dw dh).1 *
         maxScaleFactor vw vh (baseScale a vw dw dh).1 (baseScale a vw dw dh).2,
       (baseScale a vw dw dh).2 *
         maxScaleFactor vw vh (baseScale a vw dw dh).1 (baseScale a vw dw dh).2) :=
  rfl

/-- The clamped scale keeps the aspect ratio and stays positive. -/
theorem clampedScale_ratio_pos (a vw vh : ℚ) (dw dh : Option ℚ)
    (ha : 0 < a) (hvw : 0 < vw) (hvh : 0 < vh)
    (hdw : ∀ w ∈ dw, 0 < w) (hdh : ∀ h ∈ dh, 0 < h) :
    (clampedScale a vw vh dw dh).1 = a * (clampedScale a vw vh dw dh).2 ∧
    0 < (clampedScale a vw vh dw dh).2 := by
  obtain ⟨hx, hy⟩ := baseScale_pos a vw dw dh ha hvw hdw hdh
  have hf := maxScaleFactor_pos vw vh _ _ hvw hvh hx hy
  rw [clampedScale_eq]
  dsimp only
  constructor
  · rw [baseScale_ratio a vw dw dh ha.ne']
    ring
  · exact mul_pos hy hf

/-- Multiplying a positive `x` by a factor at most `b / x` lands below
`b`. -/
theorem mul_factor_le (x b f : ℚ) (hx : 0 < x) (hf : f ≤ b / x) :
    x * f ≤ b := by
  have h := mul_le_mul_of_nonneg_left hf hx.le
  calc x * f ≤ x * (b / x) := h
    _ = b := by field_simp

/-! ## Theorems: selection -/

/-- C3: from no selection, any finite sequence of image clicks,
background-canvas clicks and Escape presses leaves at most one selected
index; clicking the selected index deselects, clicking a different index
selects it exclusively, and background click or Escape always clears the
selection. -/
theorem single_selection_invariant (evs : List GalleryEvent)
    (s : Option ℕ) (i j : ℕ) (hij : j ≠ i) :
    selectedCount (runSelection evs) ≤ 1 ∧
    stepSelection (some i) (.imageClick i) = none ∧
    stepSelection (some j) (.imageClick i) = some i ∧
    stepSelection none (.imageClick i) = some i ∧
    stepSelection s .backgroundClick = none ∧
    stepSelection s .escapeKey = none := by
  refine ⟨?_, ?_, ?_, ?_, rfl, rfl⟩
  · cases runSelection evs <;> simp [selectedCount]
  · simp [stepSelection]
  · simp [stepSelection, hij]
  · simp [stepSelection]

/-- Witness for C3: a concrete event sequence and concrete indices. -/
theorem single_selection_invariant_witness :
    selectedCount (runSelection
      [.imageClick 0, .imageClick 1, .backgroundClick, .imageClick 2]) ≤ 1 ∧
    stepSelection (some 1) (.imageClick 1) = none ∧
    stepSelection (some 2) (.imageClick 1) = some 1 ∧
    stepSelection none (.imageClick 1) = some 1 ∧
    stepSelection (some 5) .backgroundClick = none ∧
    stepSelection (some 5) .escapeKey = none :=
  single_selection_invariant
    [.imageClick 0, .imageClick 1, .backgroundClick, .imageClick 2]
    (some 5) 1 2 (by decide)

/-! ## Theorems: label centering -/

/-- C4: for `n ≥ 1` nav items with spacing `s`, label `i` sits at
`(i - (n-1)/2) * s`, and the sum of all `n` label x-offsets is `0`. -/
theorem label_centering (n : ℕ) (hn : 1 ≤ n) (s : ℚ) :
    (∀ i, navLabelX n s i = ((i : ℚ) - ((n : ℚ) - 1) / 2) * s) ∧
    ∑ i ∈ Finset.range n, navLabelX n s i = 0 := by
  refine ⟨fun i => rfl, ?_⟩
  have hsum : ∀ m : ℕ, ∑ i ∈ Finset.range m, (i : ℚ) = m * (m - 1) / 2 := by
    intro m
    induction m with
    | zero => simp
    | succ k ih => rw [Finset.sum_range_succ, ih]; push_cast; ring
  unfold navLabelX
  rw [← Finset.sum_mul, Finset.sum_sub_distrib, hsum n, Finset.sum_const,
    Finset.card_range, nsmul_eq_mul]
  ring

/-- Witness for C4 at `n = 3`, `s = 3/10` (the desktop spacing). -/
theorem label_centering_witness :
    (∀ i, navLabelX 3 (3/10) i = ((i : ℚ) - ((3 : ℚ) - 1) / 2) * (3/10)) ∧
    ∑ i ∈ Finset.range 3, navLabelX 3 (3/10) i = 0 :=
  label_centering 3 (by norm_num) (3/10)

/-! ## Theorems: scale clamping -/

/-- C5: for positive aspect ratio, viewport and desired dimensions, the
base scale is multiplied on both axes by the uniform factor
`min (vw / scaleX) (vh / scaleY) 1`, and the resulting width and height
never exceed the viewport. -/
theorem scale_clamp (a vw vh : ℚ) (dw dh : Option ℚ)
    (ha : 0 < a) (hvw : 0 < vw) (hvh : 0 < vh)
    (hdw : ∀ w ∈ dw, 0 < w) (hdh : ∀ h ∈ dh, 0 < h) :
    (clampedScale a vw vh dw dh).1 =
      (baseScale a vw dw dh).1 *
        min (min (vw / (baseScale a vw dw dh).1) (vh / (baseScale a vw dw dh).2)) 1 ∧
    (clampedScale a vw vh dw dh).2 =
      (baseScale a vw dw dh).2 *
        min (min (vw / (baseScale a vw dw dh).1) (vh / (baseScale a vw dw dh).2)) 1 ∧
    (clampedScale a vw vh dw dh).1 ≤ vw ∧
    (clampedScale a vw vh dw dh).2 ≤ vh := by
  obtain ⟨hx, hy⟩ := baseScale_pos a vw dw dh ha hvw hdw hdh
  rw [clampedScale_eq]
  dsimp only
  refine ⟨rfl, rfl, ?_, ?_⟩
  · exact mul_factor_le _ _ _ hx
      ((min_le_left _ _).trans (min_le_left _ _))
  · exact mul_factor_le _ _ _ hy
      ((min_le_left _ _).trans (min_le_right _ _))

/-- Witness for C5: aspect ratio `2`, viewport `4 × 3`, desired width
`10` (wider than the viewport, so the clamp bites). -/
theorem scale_clamp_witness :
    (clampedScale 2 4 3 (some 10) none).1 =
      (baseScale 2 4 (some 10) none).1 *
        min (min (4 / (baseScale 2 4 (some 10) none).1)
          (3 / (baseScale 2 4 (some 10) none).2)) 1 ∧
    (clampedScale 2 4 3 (some 10) none).2 =
      (baseScale 2 4 (some 10) none).2 *
        min (min (4 / (baseScale 2 4 (some 10) none).1)
          (3 / (baseScale 2 4 (some 10) none).2)) 1 ∧
    (clampedScale 2 4 3 (some 10) none).1 ≤ 4 ∧
    (clampedScale 2 4 3 (some 10) none).2 ≤ 3 :=
  scale_clamp 2 4 3 (some 10) none (by norm_num) (by norm_num) (by norm_num)
    (by intro w hw; simp at hw; subst hw; norm_num)
    (by intro h hh; simp at hh)

/-- The width clamp step keeps the aspect ratio, keeps the height
positive, and bounds the width by `maxW`. -/
theorem selectedClampW_spec (a maxW sx sy : ℚ)
    (ha : 0 < a) (hW : 0 < maxW) (hsy : 0 < sy) (hratio : sx = a * sy) :
    (selectedClampW a maxW (sx, sy)).1 =
      a * (selectedClampW a maxW (sx, sy)).2 ∧
    0 < (selectedClampW a maxW (sx, sy)).2 ∧
    (selectedClampW a maxW (sx, sy)).1 ≤ maxW := by
  unfold selectedClampW
  dsimp only
  split_ifs with h
  · refine ⟨?_, div_pos hW ha, le_refl _⟩
    rw [mul_div_cancel₀ _ ha.ne']
  · exact ⟨hratio, hsy, le_of_not_lt h⟩

/-- The height clamp step keeps the aspect ratio and the earlier width
bound, and bounds the height by `maxH`. -/
theorem selectedClampH_spec (a maxH maxW : ℚ) (t : ℚ × ℚ)
    (ha : 0 < a) (hH : 0 < maxH)
    (hr : t.1 = a * t.2) (hp : 0 < t.2) (hb : t.1 ≤ maxW) :
    (selectedClampH a maxH t).1 = a * (selectedClampH a maxH t).2 ∧
    0 < (selectedClampH a maxH t).2 ∧
    (selectedClampH a maxH t).1 ≤ maxW ∧
    (selectedClampH a maxH t).2 ≤ maxH := by
  unfold selectedClampH
  split_ifs with h
  · dsimp only
    refine ⟨by ring, hH, ?_, le_refl _⟩
    have hlt : maxH * a < t.2 * a := mul_lt_mul_of_pos_right h ha
    have he : t.2 * a = t.1 := by rw [hr]; ring
    linarith
  · exact ⟨hr, hp, hb, le_of_not_lt h⟩

/-- Core of C6: if the entry scale `(sx, sy)` is positive and respects
the aspect ratio, the selected-state clamp keeps the ratio and fits
both axes into `(maxW, maxH)`. -/
theorem selectedTargetScale_spec (a maxW maxH sx sy : ℚ)
    (ha : 0 < a) (hW : 0 < maxW) (hH : 0 < maxH)
    (hsy : 0 < sy) (hratio : sx = a * sy) :
    (selectedTargetScale a maxW maxH sx sy).1 =
      a * (selectedTargetScale a maxW maxH sx sy).2 ∧
    0 < (selectedTargetScale a maxW maxH sx sy).2 ∧
    (selectedTargetScale a maxW maxH sx sy).1 ≤ maxW ∧
    (selectedTargetScale a maxW maxH sx sy).2 ≤ maxH := by
  obtain ⟨h1, h2, h3⟩ := selectedClampW_spec a maxW sx sy ha hW hsy hratio
  exact selectedClampH_spec a maxH maxW _ ha hH h1 h2 h3

/-- C6: starting from the clamped base scale of any image (aspect
ratio `a`, build viewport `vw × vh`), the selected-state clamp against
`0.8` of the current viewport `vw2 × vh2` preserves the aspect ratio
(`targetScaleX / targetScaleY = a`) and keeps both axes within 80% of
that viewport. -/
theorem aspect_ratio_preservation (a vw vh vw2 vh2 : ℚ) (dw dh : Option ℚ)
    (ha : 0 < a) (hvw : 0 < vw) (hvh : 0 < vh)
    (hvw2 : 0 < vw2) (hvh2 : 0 < vh2)
    (hdw : ∀ w ∈ dw, 0 < w) (hdh : ∀ h ∈ dh, 0 < h) :
    (selectedTargetScale a (vw2 * (4/5)) (vh2 * (4/5))
        (clampedScale a vw vh dw dh).1 (clampedScale a vw vh dw dh).2).1 /
      (selectedTargetScale a (vw2 * (4/5)) (vh2 * (4/5))
        (clampedScale a vw vh dw dh).1 (clampedScale a vw vh dw dh).2).2 = a ∧
    (selectedTargetScale a (vw2 * (4/5)) (vh2 * (4/5))
        (clampedScale a vw vh dw dh).1 (clampedScale a vw vh dw dh).2).1 ≤
      vw2 * (4/5) ∧
    (selectedTargetScale a (vw2 * (4/5)) (vh2 * (4/5))
        (clampedScale a vw vh dw dh).1 (clampedScale a vw vh dw dh).2).2 ≤
      vh2 * (4/5) := by
  obtain ⟨hr, hp⟩ := clampedScale_ratio_pos a vw vh dw dh ha hvw hvh hdw hdh
  obtain ⟨h1, h2, h3, h4⟩ := selectedTargetScale_spec a (vw2 * (4/5))
    (vh2 * (4/5)) _ _ ha (by positivity) (by positivity) hp hr
  refine ⟨?_, h3, h4⟩
  rw [h1, mul_div_assoc, div_self h2.ne', mul_one]

/-- Witness for C6: aspect ratio `2`, build viewport `4 × 3`, current
viewport `5 × 2`, desired width `10`. -/
theorem aspect_ratio_preservation_witness :
    (selectedTargetScale 2 (5 * (4/5)) (2 * (4/5))
        (clampedScale 2 4 3 (some 10) none).1
        (clampedScale 2 4 3 (some 10) none).2).1 /
      (selectedTargetScale 2 (5 * (4/5)) (2 * (4/5))
        (clampedScale 2 4 3 (some 10) none).1
        (clampedScale 2 4 3 (some 10) none).2).2 = 2 ∧
    (selectedTargetScale 2 (5 * (4/5)) (2 * (4/5))
        (clampedScale 2 4 3 (some 10) none).1
        (clampedScale 2 4 3 (some 10) none).2).1 ≤ 5 * (4/5) ∧
    (selectedTargetScale 2 (5 * (4/5)) (2 * (4/5))
        (clampedScale 2 4 3 (some 10) none).1
        (clampedScale 2 4 3 (some 10) none).2).2 ≤ 2 * (4/5) :=
  aspect_ratio_preservation 2 4 3 5 2 (some 10) none (by norm_num)
    (by norm_num) (by norm_num) (by norm_num) (by norm_num)
    (by intro w hw; simp at hw; subst hw; norm_num)
    (by intro h hh; simp at hh)

/-! ## Glass mesh sizing (ModeWrapper) -/

/-- The geometry-width ref. It starts at `1`; the effect only writes it
when the named sub-geometry exists (`nodes[geometryKey]?.geometry`), and
then uses `boundingBox.max.x - boundingBox.min.x || 1`. `none` models a
missing sub-geometry, `some w` a present one of bounding-box width `w`. -/
def geoWidth (boundingWidth : Option ℚ) : ℚ :=
  match boundingWidth with
  | some w => if w ≠ 0 then w else 1
  | none => 1

/-- The glass mesh scale after a frame: when `modeProps.scale == null`
the frame sets `Math.min(0.15, v.width * 0.9 / geoWidthRef.current)`,
otherwise the explicit `scale` prop stands. -/
def frameGlassScale (scaleOverride : Option ℚ) (vw gw : ℚ) : ℚ :=
  match scaleOverride with
  | some s => s
  | none => min 0.15 (vw * 0.9 / gw)

/-! ## Material parameter resolution (ModeWrapper, Bar) -/

/-- The material-relevant keys a per-mode override object can carry.
`none` is an absent key. -/
structure ModeMatProps where
  ior : Option ℚ
  thickness : Option ℚ
  anisotropy : Option ℚ
  chromaticAberration : Option ℚ
  transmission : Option ℚ
  roughness : Option ℚ
  attenuationDistance : Option ℚ
  color : Option String
  attenuationColor : Option String
deriving DecidableEq, Repr

/-- An empty override object `{}`. -/
def emptyProps : ModeMatProps :=
  ⟨none, none, none, none, none, none, none, none, none⟩

/-- The material parameters the `MeshTransmissionMaterial` element ends
up with: the four destructured keys always have a value, the spread
keys are passed through only when present. -/
structure ResolvedMaterial where
  ior : ℚ
  thickness : ℚ
  anisotropy : ℚ
  chromaticAberration : ℚ
  transmission : Option ℚ
  roughness : Option ℚ
  attenuationDistance : Option ℚ
  color : Option String
  attenuationColor : Option String
deriving DecidableEq, Repr

/-- `ModeWrapper`'s resolution: `ior ?? 1.15`, `thickness ?? 5`,
`anisotropy ?? 0.01`, `chromaticAberration ?? 0.1`, and the remaining
keys spread verbatim (`{...extraMat}`). -/
def resolveMaterial (p : ModeMatProps) : ResolvedMaterial :=
  { ior := p.ior.getD 1.15
    thickness := p.thickness.getD 5
    anisotropy := p.anisotropy.getD 0.01
    chromaticAberration := p.chromaticAberration.getD 0.1
    transmission := p.transmission
    roughness := p.roughness
    attenuationDistance := p.attenuationDistance
    color := p.color
    attenuationColor := p.attenuationColor }

/-- JS object spread `{ ...base, ...override }`: keys present in the
override win, the base fills the rest. -/
def mergeProps (base override : ModeMatProps) : ModeMatProps :=
  { ior := override.ior <|> base.ior
    thickness := override.thickness <|> base.thickness
    anisotropy := override.anisotropy <|> base.anisotropy
    chromaticAberration := override.chromaticAberration <|> base.chromaticAberration
    transmission := override.transmission <|> base.transmission
    roughness := override.roughness <|> base.roughness
    attenuationDistance := override.attenuationDistance <|> base.attenuationDistance
    color := override.color <|> base.color
    attenuationColor := override.attenuationColor <|> base.attenuationColor }

/-- `Bar`'s `defaultMat` object. -/
def barDefaultMat : ModeMatProps :=
  { ior := some 1.15
    thickness := some 10
    anisotropy := none
    chromaticAberration := none
    transmission := some 1
    roughness := some 0
    attenuationDistance := some 0.25
    color := some "#ffffff"
    attenuationColor := some "#ffffff" }

/-- The material bar mode ends up with: `Bar` passes
`{ ...defaultMat, ...modeProps }` into `ModeWrapper`. -/
def barMaterial (user : ModeMatProps) : ResolvedMaterial :=
  resolveMaterial (mergeProps barDefaultMat user)

/-! ## Nav items default (FluidGlass) -/

/-- A navigation item `{label, link}`. -/
structure NavItem where
  label : String
  link : String
deriving DecidableEq, Repr

/-- The destructuring default for `navItems` in `FluidGlass`. -/
def defaultNavItems : List NavItem :=
  [⟨"Home", "#home"⟩, ⟨"About", "#about"⟩, ⟨"Contact", "#contact"⟩]

/-- The nav list actually used: the `navItems` key of the raw override
object when present, else the destructuring default. -/
def resolveNavItems (overrideItems : Option (List NavItem)) : List NavItem :=
  overrideItems.getD defaultNavItems

/-! ## Idle float offsets (ImageWithAspectRatio, idle branch) -/

/-- `Math.sin(time * 0.4 + index * 0.5) * 0.1`. -/
noncomputable def floatOffsetX (t : ℝ) (i : ℕ) : ℝ :=
  Real.sin (t * 0.4 + i * 0.5) * 0.1

/-- `Math.cos(time * 0.3 + index * 0.08)` — note: no amplitude factor. -/
noncomputable def floatOffsetY (t : ℝ) (i : ℕ) : ℝ :=
  Real.cos (t * 0.3 + i * 0.08)

/-- `Math.sin(time * 0.5 + index * 0.7) * 0.2`. -/
noncomputable def floatOffsetZ (t : ℝ) (i : ℕ) : ℝ :=
  Real.sin (t * 0.5 + i * 0.7) * 0.2

/-! ## Theorems: glass mesh sizing fallback -/

/-- C7 counterexample: with the sub-geometry missing and no scale
override, at viewport width `2` the frame sets the glass scale to
`min 0.15 (2 * 0.9 / 1) = 0.15`, not `1`. -/
theorem missing_geometry_scale_counterexample :
    frameGlassScale none 2 (geoWidth none) = 3/20 ∧
    frameGlassScale none 2 (geoWidth none) ≠ 1 := by
  constructor <;> norm_num [frameGlassScale, geoWidth, min_def]

/-- C7 amended: when the named sub-geometry is absent, the geometry
width used by the sizing computation defaults to `1`, so with no scale
override the frame still applies computed sizing and sets the scale to
`min 0.15 (0.9 * viewportWidth)`; with an explicit override the
override stands. The computation is total (no crash). -/
theorem missing_geometry_fallback (vw s : ℚ) :
    geoWidth none = 1 ∧
    frameGlassScale none vw (geoWidth none) = min 0.15 (vw * 0.9) ∧
    frameGlassScale (some s) vw (geoWidth none) = s := by
  refine ⟨rfl, ?_, rfl⟩
  simp [frameGlassScale, geoWidth]

/-! ## Theorems: bar material defaults -/

/-- C8 counterexample: in bar mode with no overrides the resolved
thickness is `10` (from `Bar`'s `defaultMat`), not the claimed `5`. -/
theorem bar_thickness_counterexample :
    (barMaterial emptyProps).thickness = 10 ∧
    (barMaterial emptyProps).thickness ≠ 5 := by
  constructor <;> norm_num [barMaterial, emptyProps, mergeProps,
    barDefaultMat, resolveMaterial]

/-- C8 amended: in bar mode with no per-mode overrides the glass
material parameters are ior `1.15`, thickness `10`, anisotropy `0.01`,
chromatic aberration `0.1`, transmission `1`, roughness `0`, color and
attenuation color white, attenuation distance `0.25`; the `thickness ?? 5`
fallback of `ModeWrapper` applies only when the mode props leave
thickness unset, as lens and cube do. -/
theorem bar_material_defaults :
    barMaterial emptyProps =
      { ior := 1.15
        thickness := 10
        anisotropy := 0.01
        chromaticAberration := 0.1
        transmission := some 1
        roughness := some 0
        attenuationDistance := some 0.25
        color := some "#ffffff"
        attenuationColor := some "#ffffff" } ∧
    (resolveMaterial emptyProps).thickness = 5 := by
  constructor <;> rfl

/-! ## Theorems: nav items default -/

/-- C10: with no `navItems` key in the mode's override object the list
defaults to Home `#home`, About `#about`, Contact `#contact` in that
order, and an explicitly provided list replaces the default entirely. -/
theorem nav_items_default (items : List NavItem) :
    resolveNavItems none =
      [⟨"Home", "#home"⟩, ⟨"About", "#about"⟩, ⟨"Contact", "#contact"⟩] ∧
    resolveNavItems (some items) = items := by
  exact ⟨rfl, rfl⟩

/-! ## Theorems: idle oscillation -/

/-- C9 counterexample: at `t = 0`, `i = 0` the y-axis idle offset is
`cos 0 = 1`, outside the claimed amplitude range of at most `0.2`. -/
theorem idle_oscillation_counterexample :
    floatOffsetY 0 0 = 1 ∧ ¬ |floatOffsetY 0 0| ≤ 0.2 := by
  have h : floatOffsetY 0 0 = 1 := by
    unfold floatOffsetY
    norm_num
  refine ⟨h, ?_⟩
  rw [h]
  norm_num

/-- C9 amended: the idle offsets are per-axis sine/cosine waves with
frequencies `0.4`, `0.3`, `0.5` rad/s and phases shifted by the image
index (`0.5 i`, `0.08 i`, `0.7 i`); the x and z amplitudes are `0.1`
and `0.2`, but the y axis is an unscaled cosine of amplitude `1`. -/
theorem idle_oscillation_bounds (t : ℝ) (i : ℕ) :
    floatOffsetX t i = Real.sin (t * 0.4 + i * 0.5) * 0.1 ∧
    floatOffsetY t i = Real.cos (t * 0.3 + i * 0.08) ∧
    floatOffsetZ t i = Real.sin (t * 0.5 + i * 0.7) * 0.2 ∧
    |floatOffsetX t i| ≤ 0.1 ∧
    |floatOffsetZ t i| ≤ 0.2 ∧
    |floatOffsetY t i| ≤ 1 := by
  refine ⟨rfl, rfl, rfl, ?_, ?_, Real.abs_cos_le_one _⟩
  · unfold floatOffsetX
    rw [abs_mul, abs_of_pos (by norm_num : (0:ℝ) < 0.1)]
    nlinarith [Real.abs_sin_le_one (t * 0.4 + i * 0.5),
      abs_nonneg (Real.sin (t * 0.4 + i * 0.5))]
  · unfold floatOffsetZ
    rw [abs_mul, abs_of_pos (by norm_num : (0:ℝ) < 0.2)]
    nlinarith [Real.abs_sin_le_one (t * 0.5 + i * 0.7),
      abs_nonneg (Real.sin (t * 0.5 + i * 0.7))]

end FluidGlass
